import Mathlib

/-!
Shallow embedding of the `vk` Go package: the user-lookup client in
`users.go` (`UsersGet`, `GetUserByIntID`, the response envelope and the
`UserInfo` data model) and the token registry (`VkAppsPull`,
`RegisterVkApps`, `addToken`).

The HTTP layer is abstracted: a call's interaction with the network is
represented by an `HTTPResult` oracle saying what `httpClient.Get` plus the
body read and JSON decode yielded (transport failure, malformed body, or a
decoded envelope).  Query-string construction feeds only into that oracle,
so it is not modelled separately.  The embedding instruments each call with
a `requestMade` flag recording whether control reached `httpClient.Get`.

Go `nil` slices and maps are modelled as `none` of an `Option`, Go `panic`
as an explicit result constructor, and the mutex-guarded map write as an
event trace (`lock`, `mapWrite`, `unlock`).
-/

set_option autoImplicit false

namespace Vk

/-- Model of `EpochTime`, defined outside the embedded files; only its role
as a field type matters here, so it is an integer timestamp. -/
abbrev EpochTime := Int

/-- Model of `AccessToken`, defined outside the embedded files; the spec
treats it as an opaque credential value, so it is its underlying string. -/
abbrev AccessToken := String

/-- From `users.go`: `NameCases` is a list of name cases available for VK. -/
def NameCases : List String := ["nom", "gen", "dat", "acc", "ins", "abl"]

/-- From `users.go`: a single offending request parameter in an API error. -/
structure RequestParam where
  key : String
  value : String
  deriving DecidableEq, Repr

/-- From `users.go`: the remote API error object (`error_code`, `error_msg`,
`request_params`). -/
structure vkError where
  Code : Int
  Message : String
  RequestParams : List RequestParam
  deriving DecidableEq, Repr

/-- From `users.go`: `vkError.VkErrorCode` returns the numeric error code. -/
def vkError.VkErrorCode (err : vkError) : Int :=
  err.Code

/-- From `users.go`: geographical information such as city or country. -/
structure GeoPlace where
  ID : Int
  Title : String
  deriving DecidableEq, Repr

/-- From `users.go`: information about time and platform of last seen. -/
structure PlatformInfo where
  Time : EpochTime
  Platform : Int
  deriving DecidableEq, Repr

/-- From `users.go`: information about a university. -/
structure University where
  ID : Int
  Country : Int
  City : Int
  Name : String
  Faculty : Int
  FacultyName : String
  Chair : Int
  ChairName : String
  Graduation : Int
  EducationForm : String
  EducationStatus : String
  deriving DecidableEq, Repr

/-- From `users.go`: information about a school. -/
structure School where
  ID : Int
  Country : Int
  City : Int
  Name : String
  YearFrom : Int
  YearTo : Int
  Class : String
  TypeStr : String
  Speciality : String
  deriving DecidableEq, Repr

/-- From `users.go`: information about a relative of the user. -/
structure Relative where
  ID : Int
  «Type» : String
  Name : String
  deriving DecidableEq, Repr

/-- From `users.go`: the user-profile record decoded from a response. -/
structure UserInfo where
  ID : Int
  FirstName : String
  LastName : String
  ScreenName : String
  Nickname : String
  Sex : Int
  Domain : String
  Birthdate : String
  City : GeoPlace
  Country : GeoPlace
  Photo50 : String
  Photo100 : String
  Photo200 : String
  PhotoMax : String
  Photo200Orig : String
  PhotoMaxOrig : String
  HasMobile : Bool
  Online : Bool
  CanPost : Bool
  CanSeeAllPosts : Bool
  CanSeeAudio : Bool
  CanWritePrivateMessage : Bool
  Site : String
  Status : String
  LastSeen : PlatformInfo
  CommonCount : Int
  University : Int
  UniversityName : String
  Faculty : Int
  FacultyName : Int
  Graduation : Int
  Relation : Int
  Universities : List Vk.University
  Schools : List School
  Relatives : List Relative
  deriving DecidableEq, Repr

/-- Model of the Go zero value of `UserInfo` returned by `GetUserByIntID`
on the error path. -/
def UserInfo.zero : UserInfo :=
  { ID := 0, FirstName := "", LastName := "", ScreenName := "", Nickname := ""
    Sex := 0, Domain := "", Birthdate := ""
    City := { ID := 0, Title := "" }, Country := { ID := 0, Title := "" }
    Photo50 := "", Photo100 := "", Photo200 := "", PhotoMax := ""
    Photo200Orig := "", PhotoMaxOrig := ""
    HasMobile := false, Online := false, CanPost := false
    CanSeeAllPosts := false, CanSeeAudio := false
    CanWritePrivateMessage := false
    Site := "", Status := ""
    LastSeen := { Time := 0, Platform := 0 }
    CommonCount := 0, University := 0, UniversityName := ""
    Faculty := 0, FacultyName := 0, Graduation := 0, Relation := 0
    Universities := [], Schools := [], Relatives := [] }

/-- From `users.go`: the JSON response envelope of `users.get`, carrying an
optional error object and an optional (Go: possibly nil) list of records. -/
structure Response where
  Error : Option vkError
  Response : Option (List UserInfo)
  deriving DecidableEq, Repr

/-- Outcome of JSON-decoding a response body into the envelope: either the
body is malformed for the envelope type, or it decodes to an envelope. -/
inductive DecodeResult where
  | malformed (msg : String)
  | ok (envelope : Response)
  deriving DecidableEq, Repr

/-- Oracle for one network interaction of `UsersGet`: either the HTTP GET
fails with a transport error, or a body is obtained and decoded. -/
inductive HTTPResult where
  | failure (msg : String)
  | success (body : DecodeResult)
  deriving DecidableEq, Repr

/-- Errors returned by `UsersGet`: input-validation errors, transport
errors, wrapped decode errors, and remote API errors. -/
inductive VkErr where
  | validation (msg : String)
  | transport (msg : String)
  | decode (msg : String)
  | api (e : vkError)
  deriving DecidableEq, Repr

/-- Result of a `UsersGet` call: the returned slice (`none` models a Go nil
slice), the returned error, and whether control reached `httpClient.Get`. -/
structure UsersGetResult where
  users : Option (List UserInfo)
  err : Option VkErr
  requestMade : Bool
  deriving DecidableEq, Repr

/-- Whether the returned error of a `UsersGet` call is an input-validation
error. -/
def UsersGetResult.isValidationError (r : UsersGetResult) : Bool :=
  match r.err with
  | some (.validation _) => true
  | _ => false

/-- Modelled from the spec: `ElemInSlice` is defined in a repository file
that is not among the embedded sources.  The spec states that the name-case
validation accepts the empty string as "no preference" together with the six
enumerated values, so the membership helper, as used at this call site, is
membership extended with the empty string. -/
def ElemInSlice (elem : String) (slice : List String) : Bool :=
  elem == "" || slice.contains elem

/-- The message of the invalid-name-case validation error in `users.go`. -/
def nameCaseErrorMsg : String :=
  "the only available name cases are: " ++ String.intercalate ", " NameCases

/-- From `users.go`: `UsersGet` implements the `users.get` method.  Input
validation happens before any network interaction; afterwards the call
consults the network oracle, surfaces transport errors as-is, wraps decode
failures, and returns the envelope's list together with its error (mapped
to a `VkErr.api`) when one is present. -/
def UsersGet (net : HTTPResult) (userIds : List String) (fields : List String)
    (nameCase : String) : UsersGetResult :=
  if userIds.length = 0 then
    { users := none
      err := some (.validation "you must pass at least one id or screen_name")
      requestMade := false }
  else if !(ElemInSlice nameCase NameCases) then
    { users := none
      err := some (.validation nameCaseErrorMsg)
      requestMade := false }
  else
    match net with
    | .failure msg =>
        { users := none, err := some (.transport msg), requestMade := true }
    | .success (.malformed msg) =>
        { users := none
          err := some (.decode ("Failed to unmarshal VK response: " ++ msg))
          requestMade := true }
    | .success (.ok response) =>
        { users := response.Response
          err := response.Error.map VkErr.api
          requestMade := true }

/-- Result of `GetUserByIntID`: the Go function either returns a pair of a
`UserInfo` and an error, or panics. -/
inductive GetUserResult where
  | ret (user : UserInfo) (err : Option VkErr)
  | panic (msg : String)
  deriving DecidableEq, Repr

/-- From `users.go`: `GetUserByIntID` calls `UsersGet` with the single
decimal-formatted ID; on error it returns the zero `UserInfo` with that
error, on success it asserts exactly one record and panics otherwise. -/
def GetUserByIntID (net : HTTPResult) (userID : Int) (nameCase : String)
    (fields : List String) : GetUserResult :=
  let r := UsersGet net [toString userID] fields nameCase
  match r.err with
  | some e => .ret UserInfo.zero (some e)
  | none =>
    match r.users.getD [] with
    | [u] => .ret u none
    | other => .panic ("len(users):" ++ toString other.length ++ " != 1")

/-- Events of the token registry: acquiring the lock, writing the map entry
for an app ID, releasing the lock. -/
inductive PullEvent where
  | lock
  | mapWrite (appID : String)
  | unlock
  deriving DecidableEq, Repr

/-- From the token-registry file: the `VkAppsPull` state.  The `locker`
field models the `sync.Locker` interface value (`none` is a nil interface),
and the two maps are `none` when nil, as in the Go zero value. -/
structure VkAppsPull where
  locker : Option Unit
  callbackUrl : String
  secrets : Option (List (String × String))
  tokens : Option (List (String × AccessToken))
  deriving DecidableEq, Repr

/-- From the token-registry file: the package-level singleton, initialized
to the zero value of `VkAppsPull`. -/
def vkAppsPull : VkAppsPull :=
  { locker := none, callbackUrl := "", secrets := none, tokens := none }

/-- From the token-registry file: `RegisterVkApps` has an empty body, so on
any state it returns the state unchanged. -/
def RegisterVkApps (state : VkAppsPull) (callbackUrl : String)
    (appSecrets : List (String × String)) : VkAppsPull :=
  state

/-- Model of a Go map assignment `m[k] = v` on an association list:
overwrite the entry for `k` in place, or append a new entry. -/
def mapSet (m : List (String × AccessToken)) (k : String) (v : AccessToken) :
    List (String × AccessToken) :=
  match m with
  | [] => [(k, v)]
  | (k2, v2) :: rest =>
    if k2 = k then (k, v) :: rest else (k2, v2) :: mapSet rest k v

/-- Model of a Go map read `m[k]` on an association list. -/
def mapGet (m : List (String × AccessToken)) (k : String) : Option AccessToken :=
  match m with
  | [] => none
  | (k2, v2) :: rest => if k2 = k then some v2 else mapGet rest k

/-- Keys of the association list are pairwise distinct: the map holds at
most one entry per key. -/
def keysNodup (m : List (String × AccessToken)) : Prop :=
  (m.map Prod.fst).Nodup

/-- Result of `addToken`: the updated registry state with the event trace,
or a Go runtime panic with the events emitted before it. -/
inductive AddTokenResult where
  | ok (pull : VkAppsPull) (events : List PullEvent)
  | panic (msg : String) (events : List PullEvent)
  deriving DecidableEq, Repr

/-- From the token-registry file: `addToken` locks, writes the map entry,
and unlocks.  Calling `Lock` on a nil interface panics before any event;
writing to a nil map panics after the lock is acquired. -/
def VkAppsPull.addToken (pull : VkAppsPull) (appID : String)
    (token : AccessToken) : AddTokenResult :=
  match pull.locker with
  | none =>
      .panic "runtime error: invalid memory address or nil pointer dereference" []
  | some _ =>
    match pull.tokens with
    | none => .panic "assignment to entry in nil map" [.lock]
    | some m =>
        .ok { pull with tokens := some (mapSet m appID token) }
          [.lock, .mapWrite appID, .unlock]

/-- Checks that every `mapWrite` in an event trace happens while the lock
is held; the second argument is whether the lock is held initially. -/
def writesUnderLock : List PullEvent → Bool → Bool
  | [], _ => true
  | .lock :: rest, _ => writesUnderLock rest true
  | .unlock :: rest, _ => writesUnderLock rest false
  | .mapWrite _ :: rest, held => held && writesUnderLock rest held

/-- Runs a sequence of `addToken` registrations from a given state,
returning `none` if any of them panics. -/
def runAddTokens (pull : VkAppsPull) (ops : List (String × AccessToken)) :
    Option VkAppsPull :=
  match ops with
  | [] => some pull
  | (a, t) :: rest =>
    match pull.addToken a t with
    | .ok p _ => runAddTokens p rest
    | .panic _ _ => none

/-- Specification-side helper: the last token written for key `a` in a
sequence of registrations, falling back to `init` if `a` is never written. -/
def lastWritten (a : String) (ops : List (String × AccessToken))
    (init : Option AccessToken) : Option AccessToken :=
  match ops with
  | [] => init
  | (k, v) :: rest => lastWritten a rest (if k = a then some v else init)

/-! ### Helper lemmas and sample data -/

theorem elemInSlice_eq_true_iff (e : String) (s : List String) :
    ElemInSlice e s = true ↔ e = "" ∨ e ∈ s := by
  simp [ElemInSlice, List.contains, List.elem_iff]

/-- Sample user record used to instantiate theorems at concrete inputs. -/
def sampleUser : UserInfo :=
  { UserInfo.zero with ID := 7, FirstName := "Ada", LastName := "L" }

/-! ### Theorems for the claims -/

/-- C3: for every call to `UsersGet` with an empty identifier list, for any
fields, name case and network behaviour, the call returns a validation
error and makes no network request. -/
theorem usersGet_emptyIds (net : HTTPResult) (fields : List String)
    (nameCase : String) :
    UsersGet net [] fields nameCase =
      { users := none
        err := some (.validation "you must pass at least one id or screen_name")
        requestMade := false } := rfl

/-- C8: `RegisterVkApps` has no behavior: for every callback URL and app
secrets it leaves the registry state unchanged. -/
theorem registerVkApps_noop (state : VkAppsPull) (callbackUrl : String)
    (appSecrets : List (String × String)) :
    RegisterVkApps state callbackUrl appSecrets = state := rfl

/-- C10: the package-level `vkAppsPull` singleton is the zero value (nil
locker, nil tokens map), `RegisterVkApps` leaves it that way, and `addToken`
on it panics with a nil-interface dereference; even with a locker installed,
the nil tokens map makes the write panic. -/
theorem addToken_zeroValue_panics :
    vkAppsPull.locker = none ∧ vkAppsPull.tokens = none ∧
    (∀ callbackUrl : String, ∀ appSecrets : List (String × String),
      RegisterVkApps vkAppsPull callbackUrl appSecrets = vkAppsPull) ∧
    (∀ appID : String, ∀ token : AccessToken,
      vkAppsPull.addToken appID token =
        .panic "runtime error: invalid memory address or nil pointer dereference" []) ∧
    (∀ appID : String, ∀ token : AccessToken,
      ({ vkAppsPull with locker := some () } : VkAppsPull).addToken appID token =
        .panic "assignment to entry in nil map" [.lock]) :=
  ⟨rfl, rfl, fun _ _ => rfl, fun _ _ => rfl, fun _ _ => rfl⟩

/-- C6: for every response body that is malformed JSON for the envelope
type, `UsersGet` returns a wrapped decode error and a nil record list. -/
theorem usersGet_malformedBody (userIds fields : List String)
    (nameCase msg : String) (hids : userIds ≠ [])
    (hnc : ElemInSlice nameCase NameCases = true) :
    UsersGet (.success (.malformed msg)) userIds fields nameCase =
      { users := none
        err := some (.decode ("Failed to unmarshal VK response: " ++ msg))
        requestMade := true } := by
  have h0 : ¬ userIds.length = 0 := by simpa [List.length_eq_zero] using hids
  simp [UsersGet, h0, hnc]

/-- Witness for C6 at a concrete call. -/
theorem usersGet_malformedBody_witness :
    (["1"] : List String) ≠ [] ∧ ElemInSlice "nom" NameCases = true ∧
    UsersGet (.success (.malformed "unexpected end of JSON input")) ["1"] []
        "nom" =
      { users := none
        err := some (.decode
          ("Failed to unmarshal VK response: " ++ "unexpected end of JSON input"))
        requestMade := true } :=
  ⟨by decide, by decide,
    usersGet_malformedBody ["1"] [] "nom" "unexpected end of JSON input"
      (by decide) (by decide)⟩

/-- C5: for every response body decoding to an envelope with a populated
response array and a null error, `UsersGet` returns exactly that array and
no error. -/
theorem usersGet_successList (userIds fields : List String) (nameCase : String)
    (l : List UserInfo) (hids : userIds ≠ [])
    (hnc : ElemInSlice nameCase NameCases = true) (hl : l ≠ []) :
    UsersGet (.success (.ok { Error := none, Response := some l })) userIds
        fields nameCase =
      { users := some l, err := none, requestMade := true } := by
  have h0 : ¬ userIds.length = 0 := by simpa [List.length_eq_zero] using hids
  simp [UsersGet, h0, hnc]

/-- Witness for C5 at a concrete call. -/
theorem usersGet_successList_witness :
    (["1"] : List String) ≠ [] ∧ ElemInSlice "nom" NameCases = true ∧
    [sampleUser] ≠ [] ∧
    UsersGet (.success (.ok { Error := none, Response := some [sampleUser] }))
        ["1"] [] "nom" =
      { users := some [sampleUser], err := none, requestMade := true } :=
  ⟨by decide, by decide, by simp,
    usersGet_successList ["1"] [] "nom" [sampleUser] (by decide) (by decide)
      (by simp)⟩

/-- C2: for every response body decoding to an envelope with a non-null
error object, `UsersGet` returns the remote error — whose `VkErrorCode` is
the envelope's numeric `error_code` — together with whatever (possibly
empty or nil) list was in the envelope's response field. -/
theorem usersGet_remoteError (userIds fields : List String) (nameCase : String)
    (envelope : Response) (e : vkError) (hids : userIds ≠ [])
    (hnc : ElemInSlice nameCase NameCases = true)
    (herr : envelope.Error = some e) :
    UsersGet (.success (.ok envelope)) userIds fields nameCase =
      { users := envelope.Response, err := some (.api e), requestMade := true }
    ∧ e.VkErrorCode = e.Code := by
  have h0 : ¬ userIds.length = 0 := by simpa [List.length_eq_zero] using hids
  exact ⟨by simp [UsersGet, h0, hnc, herr], rfl⟩

/-- Witness for C2 at a concrete call in which both the error and the
response list are populated. -/
theorem usersGet_remoteError_witness :
    (["1"] : List String) ≠ [] ∧ ElemInSlice "nom" NameCases = true ∧
    (Response.mk (some { Code := 5, Message := "User authorization failed"
                         RequestParams := [] }) (some [sampleUser])).Error =
      some { Code := 5, Message := "User authorization failed"
             RequestParams := [] } ∧
    (UsersGet (.success (.ok (Response.mk
          (some { Code := 5, Message := "User authorization failed"
                  RequestParams := [] }) (some [sampleUser])))) ["1"] [] "nom" =
      { users := some [sampleUser]
        err := some (.api { Code := 5, Message := "User authorization failed"
                            RequestParams := [] })
        requestMade := true }
    ∧ vkError.VkErrorCode { Code := 5, Message := "User authorization failed"
                            RequestParams := [] } = 5) :=
  ⟨by decide, by decide, rfl,
    usersGet_remoteError ["1"] [] "nom" _ _ (by decide) (by decide) rfl⟩

/-- C1: for every call with a non-empty identifier list, a name case
outside the six-value enumeration and different from the empty string
yields a validation error without a network request, while the empty string
passes validation (no validation error is returned, and the request is
made) whatever the network does. -/
theorem usersGet_nameCaseValidation (net : HTTPResult)
    (userIds fields : List String) (nameCase : String) (hids : userIds ≠ []) :
    (nameCase ∉ NameCases → nameCase ≠ "" →
      UsersGet net userIds fields nameCase =
        { users := none
          err := some (.validation nameCaseErrorMsg)
          requestMade := false })
    ∧ (nameCase = "" →
      (UsersGet net userIds fields nameCase).isValidationError = false
      ∧ (UsersGet net userIds fields nameCase).requestMade = true) := by
  have h0 : ¬ userIds.length = 0 := by simpa [List.length_eq_zero] using hids
  constructor
  · intro hmem hempty
    have hfalse : ElemInSlice nameCase NameCases = false := by
      rw [Bool.eq_false_iff]
      intro h
      rcases (elemInSlice_eq_true_iff _ _).1 h with h1 | h1
      · exact hempty h1
      · exact hmem h1
    simp [UsersGet, h0, hfalse]
  · intro hempty
    subst hempty
    have htrue : ElemInSlice "" NameCases = true := by decide
    cases net with
    | failure msg => simp [UsersGet, h0, htrue, UsersGetResult.isValidationError]
    | success body =>
      cases body with
      | malformed msg =>
        simp [UsersGet, h0, htrue, UsersGetResult.isValidationError]
      | ok envelope =>
        cases h : envelope.Error with
        | none =>
          simp [UsersGet, h0, htrue, h, UsersGetResult.isValidationError]
        | some e =>
          simp [UsersGet, h0, htrue, h, UsersGetResult.isValidationError]

/-- Witness for C1 at concrete calls: an invalid name case is rejected
without a request, the empty one is accepted. -/
theorem usersGet_nameCaseValidation_witness :
    (["1"] : List String) ≠ [] ∧
    (("bad" : String) ∉ NameCases → ("bad" : String) ≠ "" →
      UsersGet (.failure "connection refused") ["1"] [] "bad" =
        { users := none
          err := some (.validation nameCaseErrorMsg)
          requestMade := false })
    ∧ (("bad" : String) = "" →
      (UsersGet (.failure "connection refused") ["1"] [] "bad").isValidationError
          = false
      ∧ (UsersGet (.failure "connection refused") ["1"] [] "bad").requestMade
          = true) :=
  ⟨by decide,
    usersGet_nameCaseValidation (.failure "connection refused") ["1"] [] "bad"
      (by decide)⟩

/-- C4: when the underlying `UsersGet` call inside `GetUserByIntID`
succeeds, a single-record result is returned with no error, and any other
record count panics rather than returning an error. -/
theorem getUserByIntID_singleRecord (net : HTTPResult) (userID : Int)
    (nameCase : String) (fields : List String)
    (hok : (UsersGet net [toString userID] fields nameCase).err = none) :
    (∀ u : UserInfo,
      (UsersGet net [toString userID] fields nameCase).users.getD [] = [u] →
      GetUserByIntID net userID nameCase fields = .ret u none)
    ∧ (((UsersGet net [toString userID] fields nameCase).users.getD []).length
          ≠ 1 →
      GetUserByIntID net userID nameCase fields =
        .panic ("len(users):" ++
          toString
            ((UsersGet net [toString userID] fields nameCase).users.getD
              []).length ++ " != 1")) := by
  constructor
  · intro u hu
    simp [GetUserByIntID, hok, hu]
  · intro hlen
    cases h : (UsersGet net [toString userID] fields nameCase).users.getD []
        with
    | nil => simp [GetUserByIntID, hok, h]
    | cons u rest =>
      cases rest with
      | nil => rw [h] at hlen; simp at hlen
      | cons v rest2 => simp [GetUserByIntID, hok, h]

/-- Witness for C4 at a concrete call returning exactly one record. -/
theorem getUserByIntID_singleRecord_witness :
    (UsersGet (.success (.ok { Error := none, Response := some [sampleUser] }))
        [toString (1 : Int)] [] "nom").err = none ∧
    ((∀ u : UserInfo,
      (UsersGet (.success (.ok { Error := none, Response := some [sampleUser] }))
          [toString (1 : Int)] [] "nom").users.getD [] = [u] →
      GetUserByIntID (.success (.ok { Error := none
                                      Response := some [sampleUser] })) 1 "nom"
          [] = .ret u none)
    ∧ (((UsersGet (.success (.ok { Error := none
                                   Response := some [sampleUser] }))
          [toString (1 : Int)] [] "nom").users.getD []).length ≠ 1 →
      GetUserByIntID (.success (.ok { Error := none
                                      Response := some [sampleUser] })) 1 "nom"
          [] =
        .panic ("len(users):" ++
          toString ((UsersGet (.success (.ok { Error := none
                                               Response := some [sampleUser] }))
            [toString (1 : Int)] [] "nom").users.getD []).length ++
          " != 1"))) :=
  ⟨rfl,
    getUserByIntID_singleRecord
      (.success (.ok { Error := none, Response := some [sampleUser] })) 1 "nom"
      [] rfl⟩

/-- C9: whenever the underlying `UsersGet` call returns a non-nil error,
`GetUserByIntID` returns the zero `UserInfo` with that error, discarding
any record list returned alongside it. -/
theorem getUserByIntID_errorPath (net : HTTPResult) (userID : Int)
    (nameCase : String) (fields : List String) (e : VkErr)
    (he : (UsersGet net [toString userID] fields nameCase).err = some e) :
    GetUserByIntID net userID nameCase fields =
      .ret UserInfo.zero (some e) := by
  simp [GetUserByIntID, he]

/-- Witness for C9 at a concrete call in which the envelope carries both an
error and a populated record list: the list is discarded. -/
theorem getUserByIntID_errorPath_witness :
    (UsersGet (.success (.ok (Response.mk
        (some { Code := 6, Message := "Too many requests per second"
                RequestParams := [] }) (some [sampleUser]))))
      [toString (1 : Int)] [] "nom").err =
      some (.api { Code := 6, Message := "Too many requests per second"
                   RequestParams := [] }) ∧
    GetUserByIntID (.success (.ok (Response.mk
        (some { Code := 6, Message := "Too many requests per second"
                RequestParams := [] }) (some [sampleUser])))) 1 "nom" [] =
      .ret UserInfo.zero
        (some (.api { Code := 6, Message := "Too many requests per second"
                      RequestParams := [] })) :=
  ⟨rfl,
    getUserByIntID_errorPath (.success (.ok (Response.mk
        (some { Code := 6, Message := "Too many requests per second"
                RequestParams := [] }) (some [sampleUser])))) 1 "nom" [] _ rfl⟩

/-! ### Association-list lemmas for the token registry -/

theorem mapGet_mapSet_self (m : List (String × AccessToken)) (k : String)
    (v : AccessToken) : mapGet (mapSet m k v) k = some v := by
  induction m with
  | nil => simp [mapSet, mapGet]
  | cons p rest ih =>
    obtain ⟨k2, v2⟩ := p
    by_cases h : k2 = k
    · simp [mapSet, mapGet, h]
    · simp [mapSet, mapGet, h, ih]

theorem mapGet_mapSet_other (m : List (String × AccessToken)) (k k2 : String)
    (v : AccessToken) (h : k2 ≠ k) :
    mapGet (mapSet m k v) k2 = mapGet m k2 := by
  induction m with
  | nil => simp [mapSet, mapGet, Ne.symm h]
  | cons p rest ih =>
    obtain ⟨k3, v3⟩ := p
    by_cases h3 : k3 = k
    · subst h3
      simp [mapSet, mapGet, Ne.symm h]
    · by_cases h2 : k3 = k2
      · simp [mapSet, mapGet, h3, h2, h]
      · simp [mapSet, mapGet, h3, h2, ih]

theorem mem_keys_mapSet (m : List (String × AccessToken)) (k : String)
    (v : AccessToken) (a : String)
    (ha : a ∈ (mapSet m k v).map Prod.fst) :
    a = k ∨ a ∈ m.map Prod.fst := by
  induction m with
  | nil => simpa [mapSet] using ha
  | cons p rest ih =>
    obtain ⟨k2, v2⟩ := p
    by_cases h : k2 = k
    · subst h
      simpa [mapSet] using ha
    · rw [mapSet] at ha
      simp only [if_neg h, List.map_cons, List.mem_cons] at ha
      rcases ha with ha | ha
      · right; simp [ha]
      · rcases ih ha with h1 | h1
        · exact Or.inl h1
        · right; simp [h1]

theorem keysNodup_mapSet (m : List (String × AccessToken)) (k : String)
    (v : AccessToken) (hm : keysNodup m) : keysNodup (mapSet m k v) := by
  induction m with
  | nil => simp [mapSet, keysNodup]
  | cons p rest ih =>
    obtain ⟨k2, v2⟩ := p
    rw [keysNodup, List.map_cons, List.nodup_cons] at hm
    obtain ⟨hk2, hrest⟩ := hm
    by_cases h : k2 = k
    · subst h
      rw [keysNodup, mapSet, if_pos rfl, List.map_cons, List.nodup_cons]
      exact ⟨hk2, hrest⟩
    · rw [keysNodup, mapSet, if_neg h, List.map_cons, List.nodup_cons]
      refine ⟨fun hmem => ?_, ih hrest⟩
      rcases mem_keys_mapSet rest k v k2 hmem with h1 | h1
      · exact h h1
      · exact hk2 h1

theorem runAddTokens_ok (ops : List (String × AccessToken)) :
    ∀ (pull : VkAppsPull) (m : List (String × AccessToken)),
    pull.locker = some () → pull.tokens = some m → keysNodup m →
    ∃ m', runAddTokens pull ops = some { pull with tokens := some m' } ∧
      keysNodup m' ∧ ∀ a, mapGet m' a = lastWritten a ops (mapGet m a) := by
  induction ops with
  | nil =>
    intro pull m hl ht hm
    refine ⟨m, ?_, hm, fun a => rfl⟩
    rw [runAddTokens]
    cases pull
    simp_all
  | cons op rest ih =>
    obtain ⟨a, t⟩ := op
    intro pull m hl ht hm
    have haddt : pull.addToken a t =
        .ok { pull with tokens := some (mapSet m a t) }
          [.lock, .mapWrite a, .unlock] := by
      rw [VkAppsPull.addToken, hl, ht]
    obtain ⟨m', hrun, hnodup, hget⟩ :=
      ih { pull with tokens := some (mapSet m a t) } (mapSet m a t)
        (by simpa using hl) rfl (keysNodup_mapSet m a t hm)
    refine ⟨m', ?_, hnodup, fun a2 => ?_⟩
    · rw [runAddTokens, haddt]
      simpa using hrun
    · rw [lastWritten, hget a2]
      by_cases h : a = a2
      · subst h
        rw [if_pos rfl, mapGet_mapSet_self]
      · rw [if_neg h, mapGet_mapSet_other m a a2 t (Ne.symm h)]

/-- C7: on an initialized registry (non-nil locker, non-nil tokens map with
distinct keys), `addToken` overwrites the entry for the app ID with the map
write bracketed between lock and unlock, and after any sequence of
registrations the map still has at most one entry per app ID, each holding
the last token written for it.  (The Go function itself returns nothing;
its effect is the updated registry state modelled here.) -/
theorem addToken_lastWriterWins (cb : String)
    (secrets : Option (List (String × String)))
    (m : List (String × AccessToken)) (hm : keysNodup m) :
    (∀ appID token,
      VkAppsPull.addToken
          { locker := some (), callbackUrl := cb, secrets := secrets
            tokens := some m } appID token =
        .ok { locker := some (), callbackUrl := cb, secrets := secrets
              tokens := some (mapSet m appID token) }
          [.lock, .mapWrite appID, .unlock]
      ∧ writesUnderLock [.lock, .mapWrite appID, .unlock] false = true)
    ∧ ∀ ops, ∃ m',
        runAddTokens
            { locker := some (), callbackUrl := cb, secrets := secrets
              tokens := some m } ops =
          some { locker := some (), callbackUrl := cb, secrets := secrets
                 tokens := some m' } ∧
        keysNodup m' ∧ ∀ a, mapGet m' a = lastWritten a ops (mapGet m a) := by
  constructor
  · exact fun appID token => ⟨rfl, rfl⟩
  · intro ops
    exact runAddTokens_ok ops
      { locker := some (), callbackUrl := cb, secrets := secrets
        tokens := some m } m rfl rfl hm

/-- Witness for C7 on the empty initialized registry. -/
theorem addToken_lastWriterWins_witness :
    keysNodup ([] : List (String × AccessToken)) ∧
    ((∀ appID token,
      VkAppsPull.addToken
          { locker := some (), callbackUrl := "", secrets := none
            tokens := some [] } appID token =
        .ok { locker := some (), callbackUrl := "", secrets := none
              tokens := some (mapSet [] appID token) }
          [.lock, .mapWrite appID, .unlock]
      ∧ writesUnderLock [.lock, .mapWrite appID, .unlock] false = true)
    ∧ ∀ ops, ∃ m',
        runAddTokens
            { locker := some (), callbackUrl := "", secrets := none
              tokens := some [] } ops =
          some { locker := some (), callbackUrl := "", secrets := none
                 tokens := some m' } ∧
        keysNodup m' ∧ ∀ a, mapGet m' a = lastWritten a ops (mapGet [] a)) :=
  ⟨by simp [keysNodup], addToken_lastWriterWins "" none [] (by simp [keysNodup])⟩

end Vk
